import Mathlib

/-!
Verification of the tile-coverage resolver and mosaic pipeline of
`r.import.gong_lc` (mundialis), embedded shallowly from
`r.import.gong_lc.py`.  Geographic degree coordinates are modelled as
exact rationals; Python `%`, `int(...)`, `round(...)`, `range` and
`itertools.product` are embedded with their documented semantics.
External collaborators (GRASS modules, `wget`, `psutil`, the filesystem)
appear as explicit oracle parameters.
-/

namespace GongLC

/-- Python float/`%` with a positive modulus: `x % m = x - m * ⌊x / m⌋`
(result has the sign of the divisor). -/
def pymod (x m : ℚ) : ℚ := x - m * ⌊x / m⌋

/-- Python `int(...)` on a numeric value: truncation toward zero. -/
def pyint (x : ℚ) : Int := if x < 0 then ⌈x⌉ else ⌊x⌋

/-- Python `round(...)` on a numeric value: round half to even. -/
def pyround (x : ℚ) : Int :=
  let f := ⌊x⌋
  let r := x - f
  if r < 1 / 2 then f
  else if 1 / 2 < r then f + 1
  else if f % 2 = 0 then f else f + 1

/-- The aligned coordinate `int(x - x % 2)` computed for each region edge in
`get_required_tiles` (source lines 151-154). -/
def alignDown2 (x : ℚ) : Int := pyint (x - pymod x 2)

/-- Python `range(a, b, 2)` on integers (step 2, positive). -/
def pyrange2 (a b : Int) : List Int :=
  (List.range ((b - a + 1) / 2).toNat).map (fun (k : ℕ) => a + 2 * (k : Int))

/-- `itertools.product` of two integer lists, first-component major. -/
def itertoolsProduct (xs ys : List Int) : List (Int × Int) :=
  xs.flatMap (fun x => ys.map (fun y => (x, y)))

/-- The four bounds read from `g.region -lg`: `nw_lat` is the northern
latitude, `sw_lat` the southern latitude, `nw_long` the western longitude
and `ne_long` the eastern longitude. -/
structure Region where
  nw_lat : ℚ
  sw_lat : ℚ
  nw_long : ℚ
  ne_long : ℚ

/-- `"fromglc10v01_{}_{}.tif".format(tile[0], tile[1])` (source line 160). -/
def tilename (t : Int × Int) : String :=
  "fromglc10v01_" ++ toString t.1 ++ "_" ++ toString t.2 ++ ".tif"

/-- The raw tile list of `get_required_tiles` (source lines 150-157):
aligned bounds, inclusive step-2 ranges, Cartesian product. -/
def required_tiles_raw (r : Region) : List (Int × Int) :=
  let n_tile := alignDown2 r.nw_lat
  let s_tile := alignDown2 r.sw_lat
  let e_tile := alignDown2 r.nw_long
  let w_tile := alignDown2 r.ne_long
  let required_ns_tiles := pyrange2 s_tile (n_tile + 1)
  let required_ew_tiles := pyrange2 e_tile (w_tile + 1)
  itertoolsProduct required_ns_tiles required_ew_tiles

/-- `get_required_tiles` (source lines 147-162): the tile names covering the
current region, latitude-major. -/
def get_required_tiles (r : Region) : List String :=
  (required_tiles_raw r).map tilename

/-- A tile named by its south-west corner spans the closed 2°×2° square
`[lat, lat+2] × [lon, lon+2]` (source comment lines 148-149). -/
def inFootprint (t : Int × Int) (la lo : ℚ) : Prop :=
  (t.1 : ℚ) ≤ la ∧ la ≤ (t.1 : ℚ) + 2 ∧ (t.2 : ℚ) ≤ lo ∧ lo ≤ (t.2 : ℚ) + 2

instance (t : Int × Int) (la lo : ℚ) : Decidable (inFootprint t la lo) := by
  unfold inFootprint; infer_instance

lemma pyint_intCast (n : Int) : pyint (n : ℚ) = n := by
  unfold pyint
  split <;> simp

lemma alignDown2_eq (x : ℚ) : alignDown2 x = 2 * ⌊x / 2⌋ := by
  unfold alignDown2 pymod
  have h : x - (x - 2 * (⌊x / 2⌋ : ℚ)) = ((2 * ⌊x / 2⌋ : Int) : ℚ) := by
    push_cast; ring
  rw [h, pyint_intCast]

lemma alignDown2_le (x : ℚ) : (alignDown2 x : ℚ) ≤ x := by
  rw [alignDown2_eq]
  have h := Int.floor_le (x / 2)
  push_cast
  linarith

lemma lt_alignDown2_add_two (x : ℚ) : x < (alignDown2 x : ℚ) + 2 := by
  rw [alignDown2_eq]
  have h := Int.lt_floor_add_one (x / 2)
  push_cast
  linarith

lemma alignDown2_mono {x y : ℚ} (h : x ≤ y) : alignDown2 x ≤ alignDown2 y := by
  rw [alignDown2_eq, alignDown2_eq]
  have := Int.floor_mono (div_le_div_of_nonneg_right h (by norm_num) : x / 2 ≤ y / 2)
  omega

lemma le_alignDown2 {m : Int} {x : ℚ} (hm : 2 ∣ m) (hx : (m : ℚ) ≤ x) :
    m ≤ alignDown2 x := by
  rw [alignDown2_eq]
  obtain ⟨k, rfl⟩ := hm
  have hk : k ≤ ⌊x / 2⌋ := by
    rw [Int.le_floor]
    rw [le_div_iff₀ (by norm_num : (0:ℚ) < 2)]
    push_cast at hx ⊢
    linarith
  omega

lemma alignDown2_two_dvd (x : ℚ) : 2 ∣ alignDown2 x := by
  rw [alignDown2_eq]; exact Dvd.intro _ rfl

lemma mem_pyrange2 {a b x : Int} :
    x ∈ pyrange2 a b ↔ ∃ k : ℕ, (k : Int) < (b - a + 1) / 2 ∧ x = a + 2 * k := by
  unfold pyrange2
  rw [List.mem_map]
  constructor
  · rintro ⟨k, hk, rfl⟩
    rw [List.mem_range] at hk
    refine ⟨k, ?_, rfl⟩
    omega
  · rintro ⟨k, hk, rfl⟩
    refine ⟨k, List.mem_range.mpr ?_, rfl⟩
    omega

/-- An even value between two even bounds lies in the inclusive step-2
range `pyrange2 a (n+1)`. -/
lemma mem_pyrange2_of_even {a c n : Int} (ha : 2 ∣ a) (hc : 2 ∣ c) (hn : 2 ∣ n)
    (h1 : a ≤ c) (h2 : c ≤ n) : c ∈ pyrange2 a (n + 1) := by
  rw [mem_pyrange2]
  obtain ⟨i, rfl⟩ := ha
  obtain ⟨j, rfl⟩ := hc
  obtain ⟨m, rfl⟩ := hn
  refine ⟨(j - i).toNat, ?_, ?_⟩ <;> omega

lemma pyrange2_bounds {a b x : Int} (h : x ∈ pyrange2 a b) : a ≤ x ∧ x < b := by
  rw [mem_pyrange2] at h
  obtain ⟨k, hk, rfl⟩ := h
  omega

lemma mem_itertoolsProduct {xs ys : List Int} {p : Int × Int} :
    p ∈ itertoolsProduct xs ys ↔ p.1 ∈ xs ∧ p.2 ∈ ys := by
  unfold itertoolsProduct
  cases p with
  | mk x y =>
    simp only [List.mem_flatMap, List.mem_map, Prod.mk.injEq]
    constructor
    · rintro ⟨a, ha, b, hb, rfl, rfl⟩
      exact ⟨ha, hb⟩
    · rintro ⟨hx, hy⟩
      exact ⟨x, hx, y, hy, rfl, rfl⟩

lemma mem_required_tiles_raw {r : Region} {t : Int × Int} :
    t ∈ required_tiles_raw r ↔
      t.1 ∈ pyrange2 (alignDown2 r.sw_lat) (alignDown2 r.nw_lat + 1) ∧
      t.2 ∈ pyrange2 (alignDown2 r.nw_long) (alignDown2 r.ne_long + 1) := by
  unfold required_tiles_raw
  exact mem_itertoolsProduct

lemma aligned_tile_mem {lowEdge highEdge c : ℚ} (h1 : lowEdge ≤ c) (h2 : c ≤ highEdge) :
    alignDown2 c ∈ pyrange2 (alignDown2 lowEdge) (alignDown2 highEdge + 1) :=
  mem_pyrange2_of_even (alignDown2_two_dvd _) (alignDown2_two_dvd _)
    (alignDown2_two_dvd _) (alignDown2_mono h1) (alignDown2_mono h2)

/-- C1: for every region with `south ≤ north` and `west ≤ east`, every point
inside the region lies inside the closed 2°×2° footprint of at least one
tile returned by `get_required_tiles`. -/
theorem tile_coverage_complete (r : Region) (la lo : ℚ)
    (hsn : r.sw_lat ≤ r.nw_lat) (hwe : r.nw_long ≤ r.ne_long)
    (h1 : r.sw_lat ≤ la) (h2 : la ≤ r.nw_lat)
    (h3 : r.nw_long ≤ lo) (h4 : lo ≤ r.ne_long) :
    ∃ t : Int × Int, tilename t ∈ get_required_tiles r ∧ inFootprint t la lo := by
  refine ⟨(alignDown2 la, alignDown2 lo), ?_, ?_, ?_, ?_, ?_⟩
  · unfold get_required_tiles
    exact List.mem_map_of_mem _
      (mem_required_tiles_raw.mpr ⟨aligned_tile_mem h1 h2, aligned_tile_mem h3 h4⟩)
  · exact alignDown2_le la
  · exact (lt_alignDown2_add_two la).le
  · exact alignDown2_le lo
  · exact (lt_alignDown2_add_two lo).le

/-- C1 witness: the region `[0,1]×[0,1]` with interior point `(1/2, 1/2)`. -/
theorem tile_coverage_complete_witness :
    ∃ t : Int × Int,
      tilename t ∈ get_required_tiles ⟨1, 0, 0, 1⟩ ∧ inFootprint t (1/2) (1/2) :=
  tile_coverage_complete ⟨1, 0, 0, 1⟩ (1/2) (1/2) (by norm_num) (by norm_num)
    (by norm_num) (by norm_num) (by norm_num) (by norm_num)

/-- C10: for every region with `south ≤ north` and `west ≤ east`, the aligned
south (resp. west) bound never exceeds the aligned north (resp. east) bound,
and `get_required_tiles` returns a non-empty list. -/
theorem get_required_tiles_nonempty (r : Region)
    (hsn : r.sw_lat ≤ r.nw_lat) (hwe : r.nw_long ≤ r.ne_long) :
    alignDown2 r.sw_lat ≤ alignDown2 r.nw_lat ∧
    alignDown2 r.nw_long ≤ alignDown2 r.ne_long ∧
    get_required_tiles r ≠ [] := by
  refine ⟨alignDown2_mono hsn, alignDown2_mono hwe, ?_⟩
  apply List.ne_nil_of_mem (a := tilename (alignDown2 r.sw_lat, alignDown2 r.nw_long))
  unfold get_required_tiles
  exact List.mem_map_of_mem _
    (mem_required_tiles_raw.mpr ⟨aligned_tile_mem le_rfl hsn, aligned_tile_mem le_rfl hwe⟩)

/-- C10 witness: the region `[0,1]×[0,1]`. -/
theorem get_required_tiles_nonempty_witness :
    alignDown2 (0:ℚ) ≤ alignDown2 (1:ℚ) ∧
    alignDown2 (0:ℚ) ≤ alignDown2 (1:ℚ) ∧
    get_required_tiles ⟨1, 0, 0, 1⟩ ≠ [] :=
  get_required_tiles_nonempty ⟨1, 0, 0, 1⟩ (by norm_num) (by norm_num)

/-- C3: the aligned value `int(x - x % 2)` computed for each region edge is
the greatest multiple of 2 not exceeding the coordinate (floor toward
negative infinity); in particular an edge at `-3.5` degrees aligns to `-4`. -/
theorem alignDown2_floor_semantics :
    (∀ x : ℚ, 2 ∣ alignDown2 x ∧ (alignDown2 x : ℚ) ≤ x ∧
      ∀ m : Int, 2 ∣ m → (m : ℚ) ≤ x → m ≤ alignDown2 x) ∧
    alignDown2 (-(7/2)) = -4 := by
  constructor
  · intro x
    exact ⟨alignDown2_two_dvd x, alignDown2_le x, fun m hm hx => le_alignDown2 hm hx⟩
  · rw [alignDown2_eq]
    norm_num

lemma alignDown2_ofInt_two_mul (m : Int) : alignDown2 ((2 * m : Int) : ℚ) = 2 * m := by
  rw [alignDown2_eq]
  have h : ((2 * m : Int) : ℚ) / 2 = (m : ℚ) := by push_cast; ring
  rw [h, Int.floor_intCast]

/-- C2 counterexample: the region `north = 4, south = 3, west = 0, east = 1`
has its north edge exactly on the tile boundary `4`.  The tile `(4, 0)`,
whose footprint `[4,6]×[0,2]` meets that region only along the line
`lat = 4`, is nevertheless returned, although the single tile `(2, 0)`
already covers the whole region — so the returned set is not minimal. -/
theorem aligned_north_extra_row_included :
    tilename (4, 0) ∈ get_required_tiles ⟨4, 3, 0, 1⟩ ∧
    (∀ la lo : ℚ, 3 ≤ la → la ≤ 4 → 0 ≤ lo → lo ≤ 1 → inFootprint (2, 0) la lo) ∧
    (∀ la lo : ℚ, inFootprint (4, 0) la lo → 3 ≤ la → la ≤ 4 → la = 4) := by
  refine ⟨?_, ?_, ?_⟩
  · unfold get_required_tiles
    apply List.mem_map_of_mem
    rw [mem_required_tiles_raw]
    have h4 : alignDown2 (4:ℚ) = 4 := by rw [alignDown2_eq]; norm_num
    have h3 : alignDown2 (3:ℚ) = 2 := by rw [alignDown2_eq]; norm_num
    have h0 : alignDown2 (0:ℚ) = 0 := by rw [alignDown2_eq]; norm_num
    have h1 : alignDown2 (1:ℚ) = 0 := by rw [alignDown2_eq]; norm_num
    refine ⟨?_, ?_⟩
    · show (4:Int) ∈ pyrange2 (alignDown2 (3:ℚ)) (alignDown2 (4:ℚ) + 1)
      rw [h3, h4]; decide
    · show (0:Int) ∈ pyrange2 (alignDown2 (0:ℚ)) (alignDown2 (1:ℚ) + 1)
      rw [h0, h1]; decide
  · intro la lo ha1 ha2 ho1 ho2
    refine ⟨?_, ?_, ?_, ?_⟩ <;> push_cast <;> linarith
  · rintro la lo ⟨hf1, _, _, _⟩ _ ha2
    push_cast at hf1
    linarith

/-- C2 amended: when a region edge lies exactly on a multiple of 2, the tile
row/column starting at that edge is included (its footprint meets the region
only along the edge line); still, every returned tile's closed footprint
intersects the closed region. -/
theorem returned_tiles_intersect_region (r : Region)
    (hsn : r.sw_lat ≤ r.nw_lat) (hwe : r.nw_long ≤ r.ne_long) :
    (∀ name ∈ get_required_tiles r, ∃ t : Int × Int, name = tilename t ∧
      ∃ la lo : ℚ, inFootprint t la lo ∧ r.sw_lat ≤ la ∧ la ≤ r.nw_lat ∧
        r.nw_long ≤ lo ∧ lo ≤ r.ne_long) ∧
    (∀ m : Int, r.nw_lat = ((2 * m : Int) : ℚ) →
      tilename (2 * m, alignDown2 r.nw_long) ∈ get_required_tiles r) ∧
    (∀ m : Int, r.ne_long = ((2 * m : Int) : ℚ) →
      tilename (alignDown2 r.sw_lat, 2 * m) ∈ get_required_tiles r) := by
  refine ⟨?_, ?_, ?_⟩
  · intro name hname
    unfold get_required_tiles at hname
    obtain ⟨t, ht, rfl⟩ := List.mem_map.mp hname
    rw [mem_required_tiles_raw] at ht
    obtain ⟨hla, hlo⟩ := ht
    have hla' := pyrange2_bounds hla
    have hlo' := pyrange2_bounds hlo
    refine ⟨t, rfl, max r.sw_lat (t.1 : ℚ), max r.nw_long (t.2 : ℚ),
      ⟨le_max_right _ _, ?_, le_max_right _ _, ?_⟩,
      le_max_left _ _, ?_, le_max_left _ _, ?_⟩
    · apply max_le
      · have hs := lt_alignDown2_add_two r.sw_lat
        have : (alignDown2 r.sw_lat : ℚ) ≤ (t.1 : ℚ) := by
          exact_mod_cast hla'.1
        linarith
      · linarith
    · apply max_le
      · have hw := lt_alignDown2_add_two r.nw_long
        have : (alignDown2 r.nw_long : ℚ) ≤ (t.2 : ℚ) := by
          exact_mod_cast hlo'.1
        linarith
      · linarith
    · apply max_le hsn
      have h1 : t.1 ≤ alignDown2 r.nw_lat := by omega
      have h2 : (t.1 : ℚ) ≤ (alignDown2 r.nw_lat : ℚ) := by exact_mod_cast h1
      exact h2.trans (alignDown2_le _)
    · apply max_le hwe
      have h1 : t.2 ≤ alignDown2 r.ne_long := by omega
      have h2 : (t.2 : ℚ) ≤ (alignDown2 r.ne_long : ℚ) := by exact_mod_cast h1
      exact h2.trans (alignDown2_le _)
  · intro m hm
    unfold get_required_tiles
    apply List.mem_map_of_mem
    rw [mem_required_tiles_raw]
    constructor
    · show (2 * m : Int) ∈ pyrange2 (alignDown2 r.sw_lat) (alignDown2 r.nw_lat + 1)
      have hn : alignDown2 r.nw_lat = 2 * m := by rw [hm, alignDown2_ofInt_two_mul]
      have hs : alignDown2 r.sw_lat ≤ 2 * m := hn ▸ alignDown2_mono hsn
      rw [hn]
      exact mem_pyrange2_of_even (alignDown2_two_dvd _) ⟨m, rfl⟩ ⟨m, rfl⟩ hs le_rfl
    · exact aligned_tile_mem le_rfl hwe
  · intro m hm
    unfold get_required_tiles
    apply List.mem_map_of_mem
    rw [mem_required_tiles_raw]
    constructor
    · exact aligned_tile_mem le_rfl hsn
    · show (2 * m : Int) ∈ pyrange2 (alignDown2 r.nw_long) (alignDown2 r.ne_long + 1)
      have he : alignDown2 r.ne_long = 2 * m := by rw [hm, alignDown2_ofInt_two_mul]
      have hw : alignDown2 r.nw_long ≤ 2 * m := he ▸ alignDown2_mono hwe
      rw [he]
      exact mem_pyrange2_of_even (alignDown2_two_dvd _) ⟨m, rfl⟩ ⟨m, rfl⟩ hw le_rfl

/-- C2 amended witness: the aligned region `north = 4, south = 3, west = 0,
east = 1`. -/
theorem returned_tiles_intersect_region_witness :
    (∀ name ∈ get_required_tiles ⟨4, 3, 0, 1⟩, ∃ t : Int × Int, name = tilename t ∧
      ∃ la lo : ℚ, inFootprint t la lo ∧ (3:ℚ) ≤ la ∧ la ≤ 4 ∧ (0:ℚ) ≤ lo ∧ lo ≤ 1) ∧
    (∀ m : Int, (4:ℚ) = ((2 * m : Int) : ℚ) →
      tilename (2 * m, alignDown2 (0:ℚ)) ∈ get_required_tiles ⟨4, 3, 0, 1⟩) ∧
    (∀ m : Int, (1:ℚ) = ((2 * m : Int) : ℚ) →
      tilename (alignDown2 (3:ℚ), 2 * m) ∈ get_required_tiles ⟨4, 3, 0, 1⟩) :=
  returned_tiles_intersect_region ⟨4, 3, 0, 1⟩ (by norm_num) (by norm_num)

/-- `freeRAM(unit, percent)` (source lines 85-109): the requested percentage
of available memory in MB or GB.  The `psutil` readings (bytes) enter as
arguments; `grass.fatal` on an unsupported unit aborts without returning a
value, modelled as `Except.error`. -/
def freeRAM (unit : String) (percent : Int) (mem_available swap_free : ℚ) :
    Except String Int :=
  let memory_GB := (mem_available + swap_free) / 1024 ^ 3
  let memory_MB := (mem_available + swap_free) / 1024 ^ 2
  if unit = "MB" then Except.ok (pyround (memory_MB * percent / 100))
  else if unit = "GB" then Except.ok (pyround (memory_GB * percent / 100))
  else Except.error ("Memory unit <" ++ unit ++ "> not supported")

/-- `test_memory` (source lines 112-121): the requested budget
`options["memory"]` and the `freeRAM("MB", 100)` reading enter as integers;
the result is the effective budget together with the warnings emitted. -/
def test_memory (memory free_ram : Int) : Int × List String :=
  if free_ram < memory then
    (free_ram,
      ["Using " ++ toString memory ++ " MB but only " ++ toString free_ram ++
        " MB RAM available.",
       "Set used memory to " ++ toString free_ram ++ " MB."])
  else (memory, [])

/-- The fixed legend `discrete_classification_coding` (source lines
125-136), in insertion order. -/
def discrete_classification_coding : List (String × String) :=
  [("10", "Cropland"), ("20", "Forest"), ("30", "Grassland"),
   ("40", "Shrubland"), ("50", "Wetland"), ("60", "Water"), ("70", "Tundra"),
   ("80", "Impervious surface"), ("90", "Bareland"), ("100", "Snow/Ice")]

/-- The `r.category` rules text accumulated at source lines 138-140. -/
def category_text : String :=
  discrete_classification_coding.foldl
    (fun acc p => acc ++ p.1 ++ "|" ++ p.2 ++ "\n") ""

/-- `categories_for_discrete_classification` (source lines 124-144): feeds
the rules text to the external `r.category` process (the oracle
`runCategory`) and evaluates to `cat_proc.wait()`, the collaborator's exit
status. -/
def categories_for_discrete_classification
    (runCategory : String → String → Int) (map : String) : Int :=
  runCategory map category_text

/-- The tail of `main` (source lines 220-223): attach the legend, print the
success message, return exit code 0.  The exit status returned by
`cat_proc.wait()` is discarded, exactly as in the source. -/
def mainFinish (runCategory : String → String → Int) (output : String) :
    Int × List String :=
  let _exitStatus := categories_for_discrete_classification runCategory output
  (0, ["Generated raster map <" ++ output ++ ">"])

/-- A stand-in `r.category` collaborator that always reports failure. -/
def failingCategoryProc : String → String → Int := fun _m _rules => 1

/-- The GRASS invocation produced by the mosaic step. -/
inductive GrassCmd
  | rename (src dst : String)
  | patch (inputs : List String) (dst : String)
deriving DecidableEq

/-- The mosaic step of `main` (source lines 209-218): exactly one imported
layer is renamed onto the output name, several are merged with `r.patch`
in import (= resolver) order. -/
def mosaicCommand (grassnames : List String) (output : String) : GrassCmd :=
  match grassnames with
  | [g] => GrassCmd.rename g output
  | gs => GrassCmd.patch gs output

/-- Modelled from the spec: the merge collaborator `r.patch` is external to
this repository; per the spec's merge policy the first input layer takes
precedence where layers overlap, later inputs only filling cells where
every earlier input is null (`none`). -/
def patchCell : List (Option Int) → Option Int
  | [] => none
  | some v :: _ => some v
  | none :: rest => patchCell rest

/-- C9: a call to `freeRAM` with a unit other than `"MB"` or `"GB"` aborts
fatally, reporting the unsupported unit, and returns no value. -/
theorem freeRAM_unsupported_unit_fatal (unit : String) (percent : Int)
    (mem_available swap_free : ℚ) (hMB : unit ≠ "MB") (hGB : unit ≠ "GB") :
    freeRAM unit percent mem_available swap_free =
      Except.error ("Memory unit <" ++ unit ++ "> not supported") := by
  unfold freeRAM
  rw [if_neg hMB, if_neg hGB]

/-- C9 witness: the unit `"KB"` is rejected. -/
theorem freeRAM_unsupported_unit_fatal_witness :
    freeRAM "KB" 100 0 0 =
      Except.error ("Memory unit <" ++ "KB" ++ "> not supported") :=
  freeRAM_unsupported_unit_fatal "KB" 100 0 0 (by decide) (by decide)

/-- C6 counterexample: clamping the requested budget 100 MB against 50 MB
of available memory emits two warnings, not exactly one as claimed. -/
theorem memory_clamp_two_warnings :
    (test_memory 100 50).2.length = 2 ∧ ¬ (test_memory 100 50).2.length = 1 := by
  decide

/-- C6 amended: a requested budget within the available memory is left
unchanged with no warning; a requested budget exceeding it is replaced by
the available amount, the run continues, and exactly two warnings are
emitted. -/
theorem memory_budgeter_behavior (memory free_ram : Int) :
    (memory ≤ free_ram → test_memory memory free_ram = (memory, [])) ∧
    (free_ram < memory → (test_memory memory free_ram).1 = free_ram ∧
      (test_memory memory free_ram).2.length = 2) := by
  constructor
  · intro h
    unfold test_memory
    rw [if_neg (not_lt.mpr h)]
  · intro h
    unfold test_memory
    rw [if_pos h]
    exact ⟨rfl, rfl⟩

/-- C6 amended witness: requested 50 of 100 MB is kept; requested 100 of
50 MB is clamped to 50 with two warnings. -/
theorem memory_budgeter_behavior_witness :
    test_memory 50 100 = (50, []) ∧
    (test_memory 100 50).1 = 50 ∧ (test_memory 100 50).2.length = 2 :=
  ⟨(memory_budgeter_behavior 50 100).1 (by decide),
   (memory_budgeter_behavior 100 50).2 (by decide)⟩

/-- C7 counterexample: with an `r.category` collaborator that reports exit
status 1, the run still returns exit code 0 and prints the success
message — legend-attachment failure is not fatal. -/
theorem legend_failure_not_fatal :
    categories_for_discrete_classification failingCategoryProc "out" = 1 ∧
    mainFinish failingCategoryProc "out" =
      (0, ["Generated raster map <out>"]) := by
  exact ⟨rfl, rfl⟩

/-- C7 amended: the exit status of the category-assignment collaborator is
discarded (`cat_proc.wait()`'s result is unused); whatever it reports, the
run returns exit code 0 and announces the generated raster, and the rules
text fed to the collaborator is the fixed 10-entry legend. -/
theorem legend_exit_ignored (runCategory : String → String → Int)
    (output : String) :
    (mainFinish runCategory output).1 = 0 ∧
    (mainFinish runCategory output).2 =
      ["Generated raster map <" ++ output ++ ">"] ∧
    categories_for_discrete_classification runCategory output =
      runCategory output category_text ∧
    category_text =
      "10|Cropland\n20|Forest\n30|Grassland\n40|Shrubland\n50|Wetland\n60|Water\n70|Tundra\n80|Impervious surface\n90|Bareland\n100|Snow/Ice\n" := by
  refine ⟨rfl, rfl, rfl, ?_⟩
  decide

/-- C4: a single imported layer is renamed onto the requested output name;
several imported layers are merged in import order, and (per the
spec-modelled `r.patch` policy) the first layer with data wins where
layers overlap, later layers only filling nulls. -/
theorem merge_policy :
    (∀ g out, mosaicCommand [g] out = GrassCmd.rename g out) ∧
    (∀ gs out, gs.length ≠ 1 → mosaicCommand gs out = GrassCmd.patch gs out) ∧
    (∀ (v : Int) rest, patchCell (some v :: rest) = some v) ∧
    (∀ rest, patchCell (none :: rest) = patchCell rest) := by
  refine ⟨fun g out => rfl, ?_, fun v rest => rfl, fun rest => rfl⟩
  intro gs out h
  match gs with
  | [] => rfl
  | [g] => exact absurd rfl h
  | g1 :: g2 :: rest => rfl

/-- C4 witness: one layer is renamed, two layers are patched, and on an
overlapping cell the first layer's value 10 wins over the second's 20. -/
theorem merge_policy_witness :
    mosaicCommand ["a"] "out" = GrassCmd.rename "a" "out" ∧
    mosaicCommand ["a", "b"] "out" = GrassCmd.patch ["a", "b"] "out" ∧
    patchCell [some 10, some 20] = some 10 :=
  ⟨merge_policy.1 "a" "out",
   merge_policy.2.1 ["a", "b"] "out" (by decide),
   merge_policy.2.2.1 10 [some 20]⟩

/-- The fixed download base URL (source line 170). -/
def baseurl : String := "http://data.ess.tsinghua.edu.cn/data/fromglc10_2017v01"

/-- `os.path.join` as used here: both joins have a slash-separated first
component and a relative second component. -/
def pathJoin (a b : String) : String := a ++ "/" ++ b

/-- The mutable state threaded through the download loop (source lines
180-190): `local_paths`, the cleanup registry `rm_files`, and the trace of
URLs handed to `wget.download`. -/
structure DownloadState where
  local_paths : List String
  rm_files : List String
  downloads : List String
deriving DecidableEq

/-- Outcome of the download loop: normal completion, or `grass.fatal`
aborting the run, carrying the state at the abort for the cleanup pass. -/
inductive DownloadOutcome
  | ok (s : DownloadState)
  | fatal (msg : String) (s : DownloadState)
deriving DecidableEq

/-- The download loop of `main` (source lines 181-190).  `dl url` is the
`wget.download` collaborator; after a successful download the local path is
appended to `local_paths` and then to `rm_files`; an exception is answered
by `grass.fatal` naming the URL and the error. -/
def downloadTiles (dl : String → Except String Unit) (download_dir : String) :
    List String → DownloadState → DownloadOutcome
  | [], s => DownloadOutcome.ok s
  | tile :: rest, s =>
    let local_path := pathJoin download_dir tile
    let url := pathJoin baseurl tile
    let s1 : DownloadState := ⟨s.local_paths, s.rm_files, s.downloads ++ [url]⟩
    match dl url with
    | Except.ok _ =>
      downloadTiles dl download_dir rest
        ⟨s1.local_paths ++ [local_path], s1.rm_files ++ [local_path],
         s1.downloads⟩
    | Except.error e =>
      DownloadOutcome.fatal
        ("There was a problem downloading " ++ url ++ ": " ++ e) s1

instance {ε α : Type} [DecidableEq ε] [DecidableEq α] :
    DecidableEq (Except ε α) := fun a b =>
  match a, b with
  | Except.ok x, Except.ok y =>
    if h : x = y then isTrue (by rw [h])
    else isFalse (by intro hc; injection hc with h2; exact h h2)
  | Except.ok _, Except.error _ => isFalse (by intro hc; simp at hc)
  | Except.error _, Except.ok _ => isFalse (by intro hc; simp at hc)
  | Except.error x, Except.error y =>
    if h : x = y then isTrue (by rw [h])
    else isFalse (by intro hc; injection hc with h2; exact h h2)

/-- A `wget.download` collaborator that fails exactly on the URL of the
tile `"t2.tif"`. -/
def dlFailSecond : String → Except String Unit := fun url =>
  if url = pathJoin baseurl "t2.tif" then Except.error "boom" else Except.ok ()

/-- C5 counterexample: with two tiles whose second download fails, the run
aborts with the URL and error and the first tile's completed download is
registered in `rm_files` — but the failing tile's partial file
`"d/t2.tif"` is not registered for cleanup (registration happens only
after a successful download). -/
theorem download_fail_partial_not_registered :
    downloadTiles dlFailSecond "d" ["t1.tif", "t2.tif"] ⟨[], [], []⟩ =
      DownloadOutcome.fatal
        ("There was a problem downloading " ++ pathJoin baseurl "t2.tif" ++
          ": " ++ "boom")
        ⟨["d/t1.tif"], ["d/t1.tif"],
         [pathJoin baseurl "t1.tif", pathJoin baseurl "t2.tif"]⟩ ∧
    "d/t2.tif" ∉ (["d/t1.tif"] : List String) := by
  decide

/-- C5 amended: if every tile before `t` downloads successfully and `t`'s
download fails, the run aborts fatally at `t` with the URL and the
underlying error, no tile after `t` is attempted, each URL up to and
including `t` is attempted exactly once, and exactly the completed
downloads (not `t`'s partial file) are registered in `rm_files`. -/
theorem download_abort_behavior (dl : String → Except String Unit)
    (download_dir : String) (pre : List String) (t : String)
    (rest : List String) (s₀ : DownloadState) (e : String)
    (hok : ∀ p ∈ pre, dl (pathJoin baseurl p) = Except.ok ())
    (hfail : dl (pathJoin baseurl t) = Except.error e) :
    downloadTiles dl download_dir (pre ++ t :: rest) s₀ =
      DownloadOutcome.fatal
        ("There was a problem downloading " ++ pathJoin baseurl t ++ ": " ++ e)
        ⟨s₀.local_paths ++ pre.map (pathJoin download_dir),
         s₀.rm_files ++ pre.map (pathJoin download_dir),
         s₀.downloads ++ (pre ++ [t]).map (pathJoin baseurl)⟩ := by
  induction pre generalizing s₀ with
  | nil =>
    simp [downloadTiles, hfail]
  | cons p pre ih =>
    have hp : dl (pathJoin baseurl p) = Except.ok () :=
      hok p (List.mem_cons_self p pre)
    have hok' : ∀ q ∈ pre, dl (pathJoin baseurl q) = Except.ok () :=
      fun q hq => hok q (List.mem_cons_of_mem p hq)
    rw [List.cons_append]
    show downloadTiles dl download_dir (p :: (pre ++ t :: rest)) s₀ = _
    rw [downloadTiles, hp]
    rw [ih _ hok']
    simp

/-- C5 amended witness: one successful tile, then a failing one. -/
theorem download_abort_behavior_witness :
    downloadTiles dlFailSecond "d" (["t1.tif"] ++ "t2.tif" :: []) ⟨[], [], []⟩ =
      DownloadOutcome.fatal
        ("There was a problem downloading " ++ pathJoin baseurl "t2.tif" ++
          ": " ++ "boom")
        ⟨[] ++ ["t1.tif"].map (pathJoin "d"),
         [] ++ ["t1.tif"].map (pathJoin "d"),
         [] ++ (["t1.tif"] ++ ["t2.tif"]).map (pathJoin baseurl)⟩ :=
  download_abort_behavior dlFailSecond "d" ["t1.tif"] "t2.tif" []
    ⟨[], [], []⟩ "boom" (by decide) (by decide)

/-- Oracles for the cleanup pass: the raster-store lookup `grass.find_file`,
the `g.remove` call (whose `grass.run_command` raises `CalledModuleError`
on failure), and the filesystem predicates and removal operations;
`some msg` stands for a raised exception with that message. -/
structure CleanupEnv where
  findFile : String → Bool
  removeRaster : String → Option String
  removeFile : String → Option String
  isdir : String → Bool
  rmtree : String → Option String

/-- The raster loop of `cleanup` (source lines 69-71): each registered
raster that still exists is removed with `g.remove` via
`grass.run_command`, which raises on failure — and the source wraps this
call in no try/except, so a failure there escapes and aborts the whole
pass. -/
def removeRastersLoop (findFile : String → Bool)
    (removeRaster : String → Option String) :
    List String → Except String (List String)
  | [] => Except.ok []
  | r :: rest =>
    if findFile r then
      match removeRaster r with
      | none =>
        match removeRastersLoop findFile removeRaster rest with
        | Except.ok l => Except.ok (r :: l)
        | Except.error e => Except.error e
      | some e => Except.error e
    else removeRastersLoop findFile removeRaster rest

/-- The file loop of `cleanup` (source lines 72-76): try to delete each
registered file; an exception becomes a warning and the loop continues. -/
def removeFilesLoop (removeFile : String → Option String) :
    List String → List String × List String
  | [] => ([], [])
  | f :: rest =>
    match removeFile f with
    | none =>
      let r := removeFilesLoop removeFile rest
      (f :: r.1, r.2)
    | some e =>
      let r := removeFilesLoop removeFile rest
      (r.1, ("Cannot remove file <" ++ f ++ ">: " ++ e) :: r.2)

/-- The directory loop of `cleanup` (source lines 77-82): recursively
remove each registered directory that exists; an exception becomes a
warning and the loop continues. -/
def removeFoldersLoop (isdir : String → Bool)
    (rmtree : String → Option String) : List String → List String × List String
  | [] => ([], [])
  | d :: rest =>
    if isdir d then
      match rmtree d with
      | none =>
        let r := removeFoldersLoop isdir rmtree rest
        (d :: r.1, r.2)
      | some e =>
        let r := removeFoldersLoop isdir rmtree rest
        (r.1, ("Cannot remove dir <" ++ d ++ ">: " ++ e) :: r.2)
    else removeFoldersLoop isdir rmtree rest

/-- What the cleanup pass did: layers/files/directories removed and the
warnings logged. -/
structure CleanupResult where
  removedRasters : List String
  removedFiles : List String
  removedFolders : List String
  warnings : List String
deriving DecidableEq

/-- `cleanup` (source lines 65-82): remove every registered raster that
still exists (lines 69-71, failure uncaught), then delete registered
files (lines 72-76, exceptions become warnings), then remove registered
directories (lines 77-82, exceptions become warnings).  An uncaught
raster-removal exception aborts the pass before the file and directory
loops ever run, modelled as `Except.error`. -/
def cleanup (env : CleanupEnv) (rm_rasters rm_files rm_folders : List String) :
    Except String CleanupResult :=
  match removeRastersLoop env.findFile env.removeRaster rm_rasters with
  | Except.error e => Except.error e
  | Except.ok rasters =>
    let files := removeFilesLoop env.removeFile rm_files
    let folders := removeFoldersLoop env.isdir env.rmtree rm_folders
    Except.ok ⟨rasters, files.1, folders.1, files.2 ++ folders.2⟩

/-- The exit path (source lines 226-229): `atexit` runs `cleanup` on every
exit; the run's exit status passes through unchanged unless the cleanup
pass itself raises. -/
def runWithCleanup (env : CleanupEnv)
    (rm_rasters rm_files rm_folders : List String) (exitStatus : Int) :
    Except String Int :=
  match cleanup env rm_rasters rm_files rm_folders with
  | Except.ok _ => Except.ok exitStatus
  | Except.error e => Except.error e

lemma removeFilesLoop_mem_removed {removeFile : String → Option String}
    {l : List String} {f : String} (hf : f ∈ l) (h : removeFile f = none) :
    f ∈ (removeFilesLoop removeFile l).1 := by
  induction l with
  | nil => cases hf
  | cons a l ih =>
    rcases List.mem_cons.mp hf with rfl | hmem
    · simp [removeFilesLoop, h]
    · cases ha : removeFile a <;> simp [removeFilesLoop, ha] <;>
        [exact Or.inr (ih hmem); exact ih hmem]

lemma removeFilesLoop_mem_warn {removeFile : String → Option String}
    {l : List String} {f e : String} (hf : f ∈ l)
    (h : removeFile f = some e) :
    ("Cannot remove file <" ++ f ++ ">: " ++ e) ∈
      (removeFilesLoop removeFile l).2 := by
  induction l with
  | nil => cases hf
  | cons a l ih =>
    rcases List.mem_cons.mp hf with rfl | hmem
    · simp [removeFilesLoop, h]
    · cases ha : removeFile a <;> simp [removeFilesLoop, ha] <;>
        [exact ih hmem; exact Or.inr (ih hmem)]

lemma removeFoldersLoop_mem_removed {isdir : String → Bool}
    {rmtree : String → Option String} {l : List String} {d : String}
    (hd : d ∈ l) (hdir : isdir d = true) (h : rmtree d = none) :
    d ∈ (removeFoldersLoop isdir rmtree l).1 := by
  induction l with
  | nil => cases hd
  | cons a l ih =>
    rcases List.mem_cons.mp hd with rfl | hmem
    · simp [removeFoldersLoop, hdir, h]
    · by_cases hda : isdir a
      · cases ha : rmtree a <;> simp [removeFoldersLoop, hda, ha] <;>
          [exact Or.inr (ih hmem); exact ih hmem]
      · simp [removeFoldersLoop, hda]
        exact ih hmem

lemma removeFoldersLoop_mem_warn {isdir : String → Bool}
    {rmtree : String → Option String} {l : List String} {d e : String}
    (hd : d ∈ l) (hdir : isdir d = true) (h : rmtree d = some e) :
    ("Cannot remove dir <" ++ d ++ ">: " ++ e) ∈
      (removeFoldersLoop isdir rmtree l).2 := by
  induction l with
  | nil => cases hd
  | cons a l ih =>
    rcases List.mem_cons.mp hd with rfl | hmem
    · simp [removeFoldersLoop, hdir, h]
    · by_cases hda : isdir a
      · cases ha : rmtree a <;> simp [removeFoldersLoop, hda, ha] <;>
          [exact ih hmem; exact Or.inr (ih hmem)]
      · simp [removeFoldersLoop, hda]
        exact ih hmem

lemma removeRastersLoop_ok {findFile : String → Bool}
    {removeRaster : String → Option String} {l : List String}
    (hok : ∀ r ∈ l, findFile r = true → removeRaster r = none) :
    removeRastersLoop findFile removeRaster l = Except.ok (l.filter findFile) := by
  induction l with
  | nil => rfl
  | cons a l ih =>
    have ih' := ih (fun r hr h => hok r (List.mem_cons_of_mem a hr) h)
    by_cases ha : findFile a
    · have hra := hok a (List.mem_cons_self a l) ha
      simp [removeRastersLoop, ha, hra, ih', List.filter_cons]
    · simp [removeRastersLoop, ha, ih', List.filter_cons]

/-- A cleanup environment where the single registered raster still exists
but its `g.remove` call fails. -/
def envRasterFail : CleanupEnv :=
  { findFile := fun _ => true
    removeRaster := fun _ => some "CalledModuleError"
    removeFile := fun _ => none
    isdir := fun _ => false
    rmtree := fun _ => none }

/-- C8 counterexample: with a registered raster that exists but whose
removal fails, the uncaught `CalledModuleError` escapes the cleanup pass
at the raster loop — contrary to the claim it is not logged as a warning,
it does raise, the registered file `"f1"` is never deleted, and the
exception propagates out of the teardown. -/
theorem cleanup_raster_error_escapes :
    cleanup envRasterFail ["rast1"] ["f1"] [] =
      Except.error "CalledModuleError" ∧
    runWithCleanup envRasterFail ["rast1"] ["f1"] [] 0 =
      Except.error "CalledModuleError" := by
  exact ⟨rfl, rfl⟩

/-- C8 amended: file and directory removal errors are logged as warnings,
never raise, and the loops continue; a raster-removal failure, however, is
uncaught and escapes the pass at that raster, so the remaining file and
directory removals never run.  Whenever every existing registered raster
is removed without error, the pass completes: it removes exactly the
registered rasters that still exist (skipping the rest), deletes every
registered file whose removal does not raise, warns on each file-removal
error, recursively removes every registered existing directory whose
removal does not raise, warns on each directory-removal error, and the
run's exit status passes through unchanged. -/
theorem cleanup_sentinel_amended (env : CleanupEnv)
    (rm_rasters rm_files rm_folders : List String)
    (hok : ∀ r ∈ rm_rasters, env.findFile r = true → env.removeRaster r = none) :
    ∃ res : CleanupResult,
      cleanup env rm_rasters rm_files rm_folders = Except.ok res ∧
      res.removedRasters = rm_rasters.filter env.findFile ∧
      (∀ f ∈ rm_files, env.removeFile f = none → f ∈ res.removedFiles) ∧
      (∀ f ∈ rm_files, ∀ e, env.removeFile f = some e →
        ("Cannot remove file <" ++ f ++ ">: " ++ e) ∈ res.warnings) ∧
      (∀ d ∈ rm_folders, env.isdir d = true → env.rmtree d = none →
        d ∈ res.removedFolders) ∧
      (∀ d ∈ rm_folders, env.isdir d = true → ∀ e, env.rmtree d = some e →
        ("Cannot remove dir <" ++ d ++ ">: " ++ e) ∈ res.warnings) ∧
      (∀ status : Int,
        runWithCleanup env rm_rasters rm_files rm_folders status =
          Except.ok status) := by
  have hr := removeRastersLoop_ok hok
  refine ⟨⟨rm_rasters.filter env.findFile,
    (removeFilesLoop env.removeFile rm_files).1,
    (removeFoldersLoop env.isdir env.rmtree rm_folders).1,
    (removeFilesLoop env.removeFile rm_files).2 ++
      (removeFoldersLoop env.isdir env.rmtree rm_folders).2⟩,
    ?_, rfl, ?_, ?_, ?_, ?_, ?_⟩
  · unfold cleanup
    rw [hr]
  · intro f hf h
    exact removeFilesLoop_mem_removed hf h
  · intro f hf e h
    exact List.mem_append_left _ (removeFilesLoop_mem_warn hf h)
  · intro d hd hdir h
    exact removeFoldersLoop_mem_removed hd hdir h
  · intro d hd hdir e h
    exact List.mem_append_right _ (removeFoldersLoop_mem_warn hd hdir h)
  · intro status
    unfold runWithCleanup cleanup
    rw [hr]

/-- A cleanup environment whose raster removals succeed, with one
deletable and one undeletable registered file and one registered
directory. -/
def envTeardown : CleanupEnv :=
  { findFile := fun r => r == "rast1"
    removeRaster := fun _ => none
    removeFile := fun f => if f == "bad.txt" then some "Permission denied" else none
    isdir := fun d => d == "tmpdir"
    rmtree := fun _ => none }

/-- C8 amended witness: one existing raster and one vanished one, one
deletable and one undeletable file, one removable directory. -/
theorem cleanup_sentinel_amended_witness :
    ∃ res : CleanupResult,
      cleanup envTeardown ["rast1", "gone"] ["ok.txt", "bad.txt"] ["tmpdir"] =
        Except.ok res ∧
      res.removedRasters = ["rast1", "gone"].filter envTeardown.findFile ∧
      (∀ f ∈ ["ok.txt", "bad.txt"], envTeardown.removeFile f = none →
        f ∈ res.removedFiles) ∧
      (∀ f ∈ ["ok.txt", "bad.txt"], ∀ e, envTeardown.removeFile f = some e →
        ("Cannot remove file <" ++ f ++ ">: " ++ e) ∈ res.warnings) ∧
      (∀ d ∈ ["tmpdir"], envTeardown.isdir d = true →
        envTeardown.rmtree d = none → d ∈ res.removedFolders) ∧
      (∀ d ∈ ["tmpdir"], envTeardown.isdir d = true → ∀ e,
        envTeardown.rmtree d = some e →
        ("Cannot remove dir <" ++ d ++ ">: " ++ e) ∈ res.warnings) ∧
      (∀ status : Int,
        runWithCleanup envTeardown ["rast1", "gone"] ["ok.txt", "bad.txt"]
          ["tmpdir"] status = Except.ok status) :=
  cleanup_sentinel_amended envTeardown ["rast1", "gone"] ["ok.txt", "bad.txt"]
    ["tmpdir"] (by decide)

end GongLC
